import Mathlib

/-!
Verification of the HealthGuard AI Railway orchestration layer.

The development shallowly embeds the resilience/orchestration code of the
four services (`main.py` gateway, `rag_server.py` orchestrator,
`hospital_server.py`, `insurance_server.py`).  Simulated time is a `Nat`
count of seconds; Python floats used for confidence scores and ratings are
modelled as exact rationals (the only float operations performed are
additions of 0.1-multiples, comparisons against 0.5, and `min` against 0.9,
on which exact rationals and IEEE doubles agree); hospital/insurance rating
floats are stored in tenths as naturals so that their decimal rendering is
exact.  Network effects are parameters: each modelled handler takes the
outcome of every downstream call as an argument.
-/

namespace Gateway

/-- `main.py` line 58: `MAX_FAILURES = 3`. -/
def MAX_FAILURES : Nat := 3

/-- `main.py` line 59: `CIRCUIT_TIMEOUT = 60` seconds. -/
def CIRCUIT_TIMEOUT : Nat := 60

/-- Per-dependency circuit breaker record, `main.py` lines 52-56:
`{"failures": 0, "last_failure": None, "open": False}`. -/
structure BreakerState where
  failures : Nat
  last_failure : Option Nat
  isOpen : Bool
deriving DecidableEq, Repr

/-- The initial (and admin-reset) breaker state `{0, None, False}`. -/
def breakerInit : BreakerState := ⟨0, none, false⟩

/-- `should_call_service`, `main.py` lines 61-78.  Returns the boolean
answer together with the (possibly reset) breaker state, since the Python
function mutates the breaker in place on the half-open reset path. -/
def should_call_service (now : Nat) (b : BreakerState) : Bool × BreakerState :=
  if b.isOpen = false then (true, b)
  else
    match b.last_failure with
    | some t =>
        if CIRCUIT_TIMEOUT < now - t then (true, breakerInit) else (false, b)
    | none => (false, b)

/-- `record_service_failure`, `main.py` lines 80-88: increment the failure
count, stamp the failure time, and open the breaker once the count reaches
`MAX_FAILURES`. -/
def record_service_failure (now : Nat) (b : BreakerState) : BreakerState :=
  let failures := b.failures + 1
  { failures := failures
    last_failure := some now
    isOpen := if MAX_FAILURES ≤ failures then true else b.isOpen }

/-- `record_service_success`, `main.py` lines 90-96: a success fully resets
the breaker, but only touches it when the failure count is positive. -/
def record_service_success (b : BreakerState) : BreakerState :=
  if 0 < b.failures then breakerInit else b

/-- `reset_circuit_breakers`, `main.py` lines 305-315: the admin endpoint
reinitializes every breaker to `{0, None, False}`. -/
def reset_breaker : BreakerState := breakerInit

/-- Breaker states reachable from the initial state by the four operations
the gateway ever performs on a breaker. -/
inductive Reachable : BreakerState → Prop where
  | init : Reachable breakerInit
  | permits (now : Nat) {b : BreakerState} :
      Reachable b → Reachable (should_call_service now b).2
  | fail (now : Nat) {b : BreakerState} :
      Reachable b → Reachable (record_service_failure now b)
  | succ {b : BreakerState} :
      Reachable b → Reachable (record_service_success b)
  | adminReset {b : BreakerState} : Reachable b → Reachable reset_breaker

/-- `should_call_service` either leaves the breaker untouched or resets it
to the initial state. -/
lemma should_call_service_snd (now : Nat) (b : BreakerState) :
    (should_call_service now b).2 = b
    ∨ (should_call_service now b).2 = breakerInit := by
  unfold should_call_service
  by_cases h : b.isOpen = false
  · simp [h]
  · simp [h]
    cases hlf : b.last_failure with
    | none => simp
    | some t =>
        by_cases ht : CIRCUIT_TIMEOUT < now - t
        · simp [ht]
        · simp [ht]

/-- Every reachable breaker state that is open has at least
`MAX_FAILURES = 3` recorded consecutive failures. -/
lemma reachable_open_ge_three {b : BreakerState} (hb : Reachable b)
    (ho : b.isOpen = true) : 3 ≤ b.failures := by
  induction hb with
  | init => simp [breakerInit] at ho
  | permits now hb ih =>
      rename_i b
      rcases should_call_service_snd now b with h | h
      · rw [h] at ho ⊢
        exact ih ho
      · rw [h] at ho
        simp [breakerInit] at ho
  | fail now hb ih =>
      rename_i b
      unfold record_service_failure at ho ⊢
      simp only at ho ⊢
      by_cases h : MAX_FAILURES ≤ b.failures + 1
      · simpa [MAX_FAILURES] using h
      · simp [h] at ho
        have := ih ho
        omega
  | succ hb ih =>
      rename_i b
      unfold record_service_success at ho ⊢
      by_cases h : 0 < b.failures
      · simp [h, breakerInit] at ho
      · simp [h] at ho ⊢
        exact ih ho
  | adminReset hb ih =>
      simp [reset_breaker, breakerInit] at ho

/-- In a reachable state, zero failures forces a closed breaker. -/
lemma reachable_zero_closed {b : BreakerState} (hb : Reachable b)
    (h0 : b.failures = 0) : b.isOpen = false := by
  by_contra h
  have := reachable_open_ge_three hb (by revert h; cases b.isOpen <;> simp)
  omega

/-- Claim C1: starting from the closed breaker with 0 failures, three
consecutive `record_service_failure` calls (at times `t1 t2 t3`) leave the
breaker denying calls as long as at most 60 seconds have elapsed since the
last failure; and from any reachable state, `record_service_success` leaves
the breaker with 0 failures and closed. -/
theorem C1_breaker_trip_and_success_reset
    (t1 t2 t3 now : Nat) (hcool : now - t3 ≤ CIRCUIT_TIMEOUT)
    (b : BreakerState) (hb : Reachable b) :
    (should_call_service now
        (record_service_failure t3
          (record_service_failure t2
            (record_service_failure t1 breakerInit)))).1 = false
    ∧ (record_service_success b).failures = 0
    ∧ (record_service_success b).isOpen = false := by
  refine ⟨?_, ?_, ?_⟩
  · have h3 : record_service_failure t3
        (record_service_failure t2 (record_service_failure t1 breakerInit))
        = ⟨3, some t3, true⟩ := by
      simp [record_service_failure, breakerInit, MAX_FAILURES]
    rw [h3]
    simp [should_call_service, Nat.not_lt.mpr hcool]
  · unfold record_service_success
    by_cases h : 0 < b.failures
    · simp [h, breakerInit]
    · simp [h]; omega
  · unfold record_service_success
    by_cases h : 0 < b.failures
    · simp [h, breakerInit]
    · simp [h]
      exact reachable_zero_closed hb (by omega)

/-- Concrete instantiation of C1: failures at seconds 1, 2, 3 and a
`should_call_service` query at second 40. -/
theorem C1_breaker_trip_and_success_reset_witness :
    (40 - 3 ≤ CIRCUIT_TIMEOUT)
    ∧ ((should_call_service 40
        (record_service_failure 3
          (record_service_failure 2
            (record_service_failure 1 breakerInit)))).1 = false
      ∧ (record_service_success breakerInit).failures = 0
      ∧ (record_service_success breakerInit).isOpen = false) :=
  ⟨by decide,
   C1_breaker_trip_and_success_reset 1 2 3 40 (by decide) breakerInit
     Reachable.init⟩

/-- Claim C2: if a breaker is open and its last failure is more than 60
seconds in the past, `should_call_service` returns true and resets the
state to `{0, None, False}`, whatever the prior failure count. -/
theorem C2_half_open_probe_reset
    (b : BreakerState) (t now : Nat)
    (hopen : b.isOpen = true) (hlast : b.last_failure = some t)
    (helapsed : t + CIRCUIT_TIMEOUT < now) :
    should_call_service now b = (true, breakerInit) := by
  unfold should_call_service
  rw [hopen]
  simp [hlast]
  omega

/-- Concrete instantiation of C2: a breaker opened with 7 failures at
second 5, queried at second 100. -/
theorem C2_half_open_probe_reset_witness :
    should_call_service 100 ⟨7, some 5, true⟩ = (true, breakerInit) :=
  C2_half_open_probe_reset ⟨7, some 5, true⟩ 5 100 rfl rfl (by decide)

/-- Claim C3: in every breaker state reachable from the initial state by
`should_call_service`, `record_service_failure`, `record_service_success`
and the admin reset, an open breaker has at least 3 consecutive failures. -/
theorem C3_open_implies_threshold
    (b : BreakerState) (hb : Reachable b) (ho : b.isOpen = true) :
    3 ≤ b.failures :=
  reachable_open_ge_three hb ho

/-- Concrete instantiation of C3 at the state reached by three failures. -/
theorem C3_open_implies_threshold_witness :
    3 ≤ (record_service_failure 3
          (record_service_failure 2
            (record_service_failure 1 breakerInit))).failures :=
  C3_open_implies_threshold _
    (Reachable.fail 3 (Reachable.fail 2 (Reachable.fail 1 Reachable.init)))
    (by decide)

/-- Classified outcome of the single HTTP attempt inside `call_service`
(`main.py` lines 109-133): a 2xx JSON body, or one of the four caught
exception classes (`httpx.TimeoutException`, `httpx.RequestError`,
`httpx.HTTPStatusError`, bare `Exception`). -/
inductive NetOutcome where
  | success : String → NetOutcome
  | timeout : NetOutcome
  | connectionError : NetOutcome
  | httpStatusError : Nat → NetOutcome
  | unexpected : String → NetOutcome
deriving DecidableEq, Repr

/-- `call_service`, `main.py` lines 98-135.  The network is a parameter:
`net` is what the HTTP attempt would produce if issued.  Returns the
function's Python return value (`Optional[Dict]`, here `Option String`)
together with the updated breaker.  Every failure path returns `None`;
a breaker denial returns `None` before the `try` block, touching neither
the network nor the failure counter. -/
def call_service (now : Nat) (b : BreakerState) (net : NetOutcome) :
    Option String × BreakerState :=
  let p := should_call_service now b
  if p.1 = false then (none, p.2)
  else
    match net with
    | .success body => (some body, record_service_success p.2)
    | .timeout => (none, record_service_failure now p.2)
    | .connectionError => (none, record_service_failure now p.2)
    | .httpStatusError _ => (none, record_service_failure now p.2)
    | .unexpected _ => (none, record_service_failure now p.2)

/-- When `should_call_service` answers false it also leaves the breaker
unchanged. -/
lemma should_call_service_false (now : Nat) (b : BreakerState)
    (h : (should_call_service now b).1 = false) :
    should_call_service now b = (false, b) := by
  unfold should_call_service at h ⊢
  by_cases ho : b.isOpen = false
  · simp [ho] at h
  · simp [ho] at h ⊢
    cases hlf : b.last_failure with
    | none => rfl
    | some t =>
        simp [hlf] at h ⊢
        by_cases ht : CIRCUIT_TIMEOUT < now - t
        · simp [ht] at h
        · omega

/-- Counterexample to claim C7 as stated: a breaker-denied call does not
return a distinct `CircuitOpen` outcome — its result is the very same
value (`none`) that a timeout failure produces, so the caller cannot
distinguish the two. -/
theorem C7_counterexample_circuit_open_not_distinct :
    (call_service 10 ⟨3, some 5, true⟩ (NetOutcome.success "body")).1
      = (call_service 10 breakerInit NetOutcome.timeout).1 := by decide

/-- Claim C7 (amended): when the circuit breaker denies a call, the client
returns `None` — the same sentinel it returns for timeout, connection,
HTTP-status and unexpected failures, not a distinguishable outcome —
without attempting network I/O (the result does not depend on the network
outcome) and without invoking `record_service_failure`, so the breaker
state is unchanged by the denied call. -/
theorem C7_denied_no_io_breaker_unchanged
    (now : Nat) (b : BreakerState) (net net2 : NetOutcome)
    (hdeny : (should_call_service now b).1 = false) :
    call_service now b net = (none, b)
    ∧ call_service now b net = call_service now b net2 := by
  have h := should_call_service_false now b hdeny
  constructor
  · unfold call_service
    simp [h]
  · unfold call_service
    simp [h]

/-- Concrete instantiation of C7 (amended): open breaker, recent failure,
network would have succeeded vs. would have timed out. -/
theorem C7_denied_no_io_breaker_unchanged_witness :
    ((should_call_service 10 ⟨3, some 5, true⟩).1 = false)
    ∧ (call_service 10 ⟨3, some 5, true⟩ (NetOutcome.success "ok")
        = (none, ⟨3, some 5, true⟩)
      ∧ call_service 10 ⟨3, some 5, true⟩ (NetOutcome.success "ok")
        = call_service 10 ⟨3, some 5, true⟩ NetOutcome.timeout) :=
  ⟨by decide,
   C7_denied_no_io_breaker_unchanged 10 ⟨3, some 5, true⟩
     (NetOutcome.success "ok") NetOutcome.timeout (by decide)⟩

end Gateway

/-- Python substring test helper: does the first list occur as a prefix of
the second? -/
def beginsWith : List Char → List Char → Bool
  | [], _ => true
  | _ :: _, [] => false
  | a :: as, b :: bs => a == b && beginsWith as bs

/-- Python substring test helper: does `needle` occur contiguously inside
the second list? -/
def hasSeq (needle : List Char) : List Char → Bool
  | [] => beginsWith needle []
  | b :: bs => beginsWith needle (b :: bs) || hasSeq needle bs

/-- Python's `needle in hay` on strings: contiguous substring test. -/
def substr (needle hay : String) : Bool :=
  hasSeq needle.toList hay.toList

/-- Character-wise lowering. -/
def lowerChars (l : List Char) : List Char := l.map Char.toLower

/-- Python's `str.lower()` (the queries and data are ASCII, where
`Char.toLower` and Python agree). -/
def toLowerStr (s : String) : String := ⟨lowerChars s.data⟩

/-- A record of `HOSPITAL_DATA` (`hospital_server.py` lines 32-60).  The
float rating is stored in tenths (4.5 → 45) so that rendering and ordering
are exact. -/
structure Hospital where
  id : String
  name : String
  specialties : List String
  location : String
  ratingTenths : Nat
  doctors : Nat
  emergency_services : Bool
deriving DecidableEq, Repr

/-- A record of `INSURANCE_DATA` (`insurance_server.py` lines 31-76), with
the float rating in tenths. -/
structure InsurancePlan where
  id : String
  provider : String
  plan_name : String
  type : String
  monthly_premium : Nat
  deductible : Nat
  coverage : List String
  network_hospitals : List String
  ratingTenths : Nat
deriving DecidableEq, Repr

/-- Decimal rendering of a tenths-scaled rating, matching Python's
formatting of the one-decimal floats in the datasets (45 → "4.5"). -/
def ratingStr (tenths : Nat) : String :=
  s!"{tenths / 10}.{tenths % 10}"

/-- Body shape of a successful hospital `/search` response:
`{"status": ..., "data": [...]}`. -/
structure HospitalResult where
  status : String
  data : List Hospital
deriving DecidableEq, Repr

/-- Body shape of a successful insurance `/search` response. -/
structure InsuranceResult where
  status : String
  data : List InsurancePlan
deriving DecidableEq, Repr

namespace RagServer

/-- `ServiceStatus`, `rag_server.py` lines 40-46: the health monitor's
shared liveness snapshot. -/
structure ServiceStatus where
  hospital : Bool := false
  insurance : Bool := false
  rag : Bool := true
deriving DecidableEq, Repr

/-- `QueryRequest`, `rag_server.py` lines 27-30 (the `context` dict is
opaque to all code paths and modelled as an opaque string). -/
structure QueryRequest where
  query : String
  user_id : Option String := none
  context : Option String := none
deriving DecidableEq, Repr

/-- Hospital-intent vocabulary, `rag_server.py` line 127. -/
def hospital_keywords : List String :=
  ["hospital", "doctor", "medical", "treatment", "emergency"]

/-- Insurance-intent vocabulary, `rag_server.py` line 128. -/
def insurance_keywords : List String :=
  ["insurance", "plan", "coverage", "premium", "deductible"]

/-- `is_hospital_query`, `rag_server.py` line 127: some hospital keyword
occurs in the lower-cased query. -/
def is_hospital_query (q : String) : Bool :=
  hospital_keywords.any fun w => substr w (toLowerStr q)

/-- `is_insurance_query`, `rag_server.py` line 128. -/
def is_insurance_query (q : String) : Bool :=
  insurance_keywords.any fun w => substr w (toLowerStr q)

/-- Hospital bullet line, `rag_server.py` line 141. -/
def hospitalBullet (h : Hospital) : String :=
  s!"• {h.name} - {h.location}, Rating: {ratingStr h.ratingTenths}/5"

/-- Insurance bullet line, `rag_server.py` line 151. -/
def insuranceBullet (p : InsurancePlan) : String :=
  s!"• {p.plan_name} by {p.provider} - ${p.monthly_premium}/month"

/-- Whether a hospital result earns the +0.4 confidence contribution
(`rag_server.py` lines 134-137): present, status "success", non-empty
data. -/
def hospitalContrib (hd : Option HospitalResult) : Bool :=
  match hd with
  | some r => r.status == "success" && !r.data.isEmpty
  | none => false

/-- Whether an insurance result earns the +0.4 confidence contribution
(`rag_server.py` lines 144-147). -/
def insuranceContrib (ins : Option InsuranceResult) : Bool :=
  match ins with
  | some r => r.status == "success" && !r.data.isEmpty
  | none => false

/-- The hospital section of `response_parts` (`rag_server.py` lines
134-141): a header plus at most three bullet lines, built only when the
result contributes and the intent check `is_hospital_query or not
is_insurance_query` passes. -/
def hospitalParts (q : String) (hd : Option HospitalResult) : List String :=
  match hd with
  | some r =>
      if r.status == "success" && !r.data.isEmpty then
        if is_hospital_query q || !is_insurance_query q then
          s!"I found {r.data.length} relevant hospitals for you:"
            :: (r.data.take 3).map hospitalBullet
        else []
      else []
  | none => []

/-- The insurance section of `response_parts` (`rag_server.py` lines
144-151), gated by `is_insurance_query or not is_hospital_query`. -/
def insuranceParts (q : String) (ins : Option InsuranceResult) : List String :=
  match ins with
  | some r =>
      if r.status == "success" && !r.data.isEmpty then
        if is_insurance_query q || !is_hospital_query q then
          s!"I found {r.data.length} relevant insurance plans:"
            :: (r.data.take 3).map insuranceBullet
        else []
      else []
  | none => []

/-- The hospital result's confidence contribution (`rag_server.py` line
137). -/
def hospitalConf (hd : Option HospitalResult) : ℚ :=
  if hospitalContrib hd then 0.4 else 0

/-- The insurance result's confidence contribution (`rag_server.py` line
147). -/
def insuranceConf (ins : Option InsuranceResult) : ℚ :=
  if insuranceContrib ins then 0.4 else 0

/-- Fallback answer when both health flags are down, `rag_server.py` line
156. -/
def msg_both_down : String :=
  "I\x27m sorry, but our healthcare services are temporarily unavailable. Please try again later."

/-- Fallback answer when only the hospital flag is down, line 158. -/
def msg_hospital_down : String :=
  "Hospital information is currently unavailable, but other services are working. Please try again later."

/-- Fallback answer when only the insurance flag is down, line 160. -/
def msg_insurance_down : String :=
  "Insurance information is currently unavailable, but other services are working. Please try again later."

/-- Fallback answer when both flags are healthy but nothing matched, line
162. -/
def msg_no_match : String :=
  "I couldn\x27t find specific information for your query, but our services are available. Could you please rephrase your question?"

/-- The generic advisory sentence appended at high confidence, line 166. -/
def general_advice : String :=
  "\nFor the most accurate and up-to-date information, please contact the providers directly."

/-- The degraded-fallback selection, `rag_server.py` lines 154-162. -/
def fallback_response (st : ServiceStatus) : String × ℚ :=
  if !st.hospital && !st.insurance then (msg_both_down, 0.1)
  else if !st.hospital then (msg_hospital_down, 0.2)
  else if !st.insurance then (msg_insurance_down, 0.2)
  else (msg_no_match, 0.3)

/-- `generate_response`, `rag_server.py` lines 123-169: assemble
`response_parts` and the accumulated confidence, fall back when no part
was produced, and append the advisory sentence with the clamped +0.2 boost
when confidence exceeds 0.5. -/
def generate_response (st : ServiceStatus) (q : String)
    (hospital_data : Option HospitalResult)
    (insurance_data : Option InsuranceResult) : String × ℚ :=
  let response_parts := hospitalParts q hospital_data ++ insuranceParts q insurance_data
  let confidence := hospitalConf hospital_data + insuranceConf insurance_data
  if response_parts.isEmpty then fallback_response st
  else if 0.5 < confidence then
    ("\n".intercalate (response_parts ++ [general_advice]),
      min (confidence + 0.2) 0.9)
  else
    ("\n".intercalate response_parts, confidence)

/-- What `asyncio.gather(..., return_exceptions=True)` delivers for one
dependency task in `process_query` (`rag_server.py` lines 180-202): the
parsed body, `None` (`safe_service_call` swallowed a timeout / connection
/ HTTP-status / unexpected error), or an exception object. -/
inductive CallOutcome (α : Type) where
  | ok : α → CallOutcome α
  | failed : CallOutcome α
  | exn : String → CallOutcome α
deriving DecidableEq, Repr

/-- Lines 182-202 of `rag_server.py`: an unhealthy dependency is replaced
by an immediate `None` task; a delivered exception is converted to
`None`. -/
def resolve {α : Type} (healthy : Bool) (c : CallOutcome α) : Option α :=
  if healthy then
    match c with
    | .ok r => some r
    | .failed => none
    | .exn _ => none
  else none

/-- One dependency's entry in the response `sources` mapping
(`rag_server.py` lines 208-217): either the live payload or the
`{"status": "unavailable", ...}` placeholder. -/
inductive SourceData (α : Type) where
  | live : α → SourceData α
  | placeholder : String → String → SourceData α
deriving DecidableEq, Repr

/-- `sources[dep]`: availability flag plus payload. -/
structure SourceInfo (α : Type) where
  available : Bool
  data : SourceData α
deriving DecidableEq, Repr

/-- The `sources` field: per-dependency on the happy path, a single error
entry on the exception path (line 235). -/
inductive Sources where
  | perDependency : SourceInfo HospitalResult → SourceInfo InsuranceResult → Sources
  | errorOnly : String → Sources
deriving DecidableEq, Repr

/-- `RAGResponse`, `rag_server.py` lines 32-38. -/
structure RAGResponse where
  status : String
  answer : String
  sources : Sources
  confidence : ℚ
  timestamp : String
  service : String := "rag"
deriving DecidableEq, Repr

/-- `process_query`, `rag_server.py` lines 172-227 (the `try` body): the
fan-out outcomes are parameters, exceptions are folded to `None`, and the
response is always assembled with status "success". -/
def process_query (st : ServiceStatus) (req : QueryRequest) (now : String)
    (hospitalCall : CallOutcome HospitalResult)
    (insuranceCall : CallOutcome InsuranceResult) : RAGResponse :=
  let hospital_result := resolve st.hospital hospitalCall
  let insurance_result := resolve st.insurance insuranceCall
  let ac := generate_response st req.query hospital_result insurance_result
  { status := "success"
    answer := ac.1
    sources := .perDependency
      { available := hospital_result.isSome
        data := match hospital_result with
          | some r => .live r
          | none => .placeholder "unavailable" "Hospital service is currently down" }
      { available := insurance_result.isSome
        data := match insurance_result with
          | some r => .live r
          | none => .placeholder "unavailable" "Insurance service is currently down" }
    confidence := ac.2
    timestamp := now }

/-- The `except` branch of `process_query`, `rag_server.py` lines 229-238:
the fixed apologetic response for internal faults. -/
def process_query_error (e : String) (now : String) : RAGResponse :=
  { status := "error"
    answer := "I\x27m experiencing some technical difficulties right now. Please try again in a moment."
    sources := .errorOnly e
    confidence := 0
    timestamp := now }

/-- The hospital confidence contribution is exactly 0.4 when the result
contributes and 0 otherwise. -/
lemma hospitalConf_eq_cases (hd : Option HospitalResult) :
    (hospitalContrib hd = true ∧ hospitalConf hd = 0.4)
    ∨ (hospitalContrib hd = false ∧ hospitalConf hd = 0) := by
  unfold hospitalConf
  cases h : hospitalContrib hd <;> simp [h]

/-- The insurance confidence contribution is exactly 0.4 when the result
contributes and 0 otherwise. -/
lemma insuranceConf_eq_cases (ins : Option InsuranceResult) :
    (insuranceContrib ins = true ∧ insuranceConf ins = 0.4)
    ∨ (insuranceContrib ins = false ∧ insuranceConf ins = 0) := by
  unfold insuranceConf
  cases h : insuranceContrib ins <;> simp [h]

/-- The hospital section is non-empty exactly when the result contributes
and the intent gate passes. -/
lemma hospitalParts_ne_iff (q : String) (hd : Option HospitalResult) :
    hospitalParts q hd ≠ [] ↔
      hospitalContrib hd = true
      ∧ (is_hospital_query q || !is_insurance_query q) = true := by
  cases hd with
  | none => simp [hospitalParts, hospitalContrib]
  | some r =>
      simp only [hospitalParts, hospitalContrib]
      cases hcon : (r.status == "success" && !r.data.isEmpty) <;>
        cases hg : (is_hospital_query q || !is_insurance_query q) <;> simp

/-- The insurance section is non-empty exactly when the result contributes
and the intent gate passes. -/
lemma insuranceParts_ne_iff (q : String) (ins : Option InsuranceResult) :
    insuranceParts q ins ≠ [] ↔
      insuranceContrib ins = true
      ∧ (is_insurance_query q || !is_hospital_query q) = true := by
  cases ins with
  | none => simp [insuranceParts, insuranceContrib]
  | some r =>
      simp only [insuranceParts, insuranceContrib]
      cases hcon : (r.status == "success" && !r.data.isEmpty) <;>
        cases hg : (is_insurance_query q || !is_hospital_query q) <;> simp

/-- The fallback confidence is one of 0.1, 0.2, 0.3. -/
lemma fallback_conf_cases (st : ServiceStatus) :
    (fallback_response st).2 = 0.1 ∨ (fallback_response st).2 = 0.2
    ∨ (fallback_response st).2 = 0.3 := by
  unfold fallback_response
  split
  · norm_num
  · split
    · norm_num
    · split <;> norm_num

/-- The synthesized confidence always lies in `[0, 1]`. -/
lemma generate_response_conf_bounds (st : ServiceStatus) (q : String)
    (hd : Option HospitalResult) (ins : Option InsuranceResult) :
    0 ≤ (generate_response st q hd ins).2
    ∧ (generate_response st q hd ins).2 ≤ 1 := by
  have h1 : hospitalConf hd = 0.4 ∨ hospitalConf hd = 0 := by
    rcases hospitalConf_eq_cases hd with ⟨_, h⟩ | ⟨_, h⟩ <;> [left; right] <;>
      exact h
  have h2 : insuranceConf ins = 0.4 ∨ insuranceConf ins = 0 := by
    rcases insuranceConf_eq_cases ins with ⟨_, h⟩ | ⟨_, h⟩ <;> [left; right] <;>
      exact h
  simp only [generate_response]
  split
  · rcases fallback_conf_cases st with h | h | h <;> rw [h] <;>
      constructor <;> norm_num
  · split
    · simp only []
      constructor
      · apply le_min
        · rcases h1 with h | h <;> rcases h2 with h' | h' <;>
            rw [h, h'] <;> norm_num
        · norm_num
      · calc min (hospitalConf hd + insuranceConf ins + 0.2) 0.9
            ≤ 0.9 := min_le_right _ _
          _ ≤ 1 := by norm_num
    · simp only []
      rcases h1 with h | h <;> rcases h2 with h' | h' <;>
        rw [h, h'] <;> constructor <;> norm_num

/-- Claim C4: for every health snapshot, query and combination of
dependency call outcomes (success, swallowed failure, timeout or delivered
exception, or a skipped unhealthy dependency), the orchestrator's query
handler returns a well-formed response with status "success", confidence
in `[0, 1]` and the caller's timestamp; the status "error" response with
confidence 0 and the fixed apologetic answer is produced only by the
internal-fault handler. -/
theorem C4_orchestrator_total_wellformed
    (st : ServiceStatus) (req : QueryRequest) (now : String)
    (hc : CallOutcome HospitalResult) (ic : CallOutcome InsuranceResult) :
    (process_query st req now hc ic).status = "success"
    ∧ 0 ≤ (process_query st req now hc ic).confidence
    ∧ (process_query st req now hc ic).confidence ≤ 1
    ∧ (process_query st req now hc ic).timestamp = now
    ∧ (∀ e : String,
        (process_query_error e now).status = "error"
        ∧ (process_query_error e now).confidence = 0
        ∧ (process_query_error e now).answer =
            "I\x27m experiencing some technical difficulties right now. Please try again in a moment.") := by
  refine ⟨rfl, ?_, ?_, rfl, fun e => ⟨rfl, rfl, rfl⟩⟩
  · exact (generate_response_conf_bounds st req.query _ _).1
  · exact (generate_response_conf_bounds st req.query _ _).2

/-- Claim C5: each dependency whose result is a successful non-empty
response contributes exactly +0.4 to the accumulated confidence whether or
not its text is included; a dependency's section (one header plus at most
3 bullet lines) is included exactly when the query intent favors it or the
query matches neither vocabulary; and when the combined confidence exceeds
0.5 the advisory sentence is appended and the confidence becomes the +0.2
boost clamped at 0.9. -/
theorem C5_synthesis_rules (st : ServiceStatus) (q : String)
    (hd : Option HospitalResult) (ins : Option InsuranceResult) :
    hospitalConf hd = (if hospitalContrib hd then (0.4 : ℚ) else 0)
    ∧ insuranceConf ins = (if insuranceContrib ins then (0.4 : ℚ) else 0)
    ∧ (hospitalParts q hd ≠ [] ↔
        hospitalContrib hd = true
        ∧ (is_hospital_query q = true
            ∨ (is_hospital_query q = false ∧ is_insurance_query q = false)))
    ∧ (insuranceParts q ins ≠ [] ↔
        insuranceContrib ins = true
        ∧ (is_insurance_query q = true
            ∨ (is_hospital_query q = false ∧ is_insurance_query q = false)))
    ∧ (hospitalParts q hd).length ≤ 1 + 3
    ∧ (insuranceParts q ins).length ≤ 1 + 3
    ∧ (0.5 < hospitalConf hd + insuranceConf ins →
        generate_response st q hd ins =
          ("\n".intercalate
              (hospitalParts q hd ++ insuranceParts q ins ++ [general_advice]),
            min (hospitalConf hd + insuranceConf ins + 0.2) 0.9)) := by
  refine ⟨rfl, rfl, ?_, ?_, ?_, ?_, ?_⟩
  · rw [hospitalParts_ne_iff]
    cases hH : is_hospital_query q <;> cases hI : is_insurance_query q <;> simp
  · rw [insuranceParts_ne_iff]
    cases hH : is_hospital_query q <;> cases hI : is_insurance_query q <;> simp
  · cases hd with
    | none => simp [hospitalParts]
    | some r =>
        simp only [hospitalParts]
        split
        · split
          · simp [List.length_take]
          · simp
        · simp
  · cases ins with
    | none => simp [insuranceParts]
    | some r =>
        simp only [insuranceParts]
        split
        · split
          · simp [List.length_take]
          · simp
        · simp
  · intro hconf
    have hcc : hospitalContrib hd = true ∧ insuranceContrib ins = true := by
      rcases hospitalConf_eq_cases hd with ⟨hc1, hc2⟩ | ⟨hc1, hc2⟩ <;>
        rcases insuranceConf_eq_cases ins with ⟨ic1, ic2⟩ | ⟨ic1, ic2⟩ <;>
          rw [hc2, ic2] at hconf
      · exact ⟨hc1, ic1⟩
      · norm_num at hconf
      · norm_num at hconf
      · norm_num at hconf
    obtain ⟨hc1, ic1⟩ := hcc
    · have hne : hospitalParts q hd ++ insuranceParts q ins ≠ [] := by
        intro hemp
        rcases List.append_eq_nil.mp hemp with ⟨hp1, hp2⟩
        cases hH : is_hospital_query q <;> cases hI : is_insurance_query q
        · exact (hospitalParts_ne_iff q hd).mpr ⟨hc1, by simp [hH, hI]⟩ hp1
        · exact (insuranceParts_ne_iff q ins).mpr ⟨ic1, by simp [hH, hI]⟩ hp2
        · exact (hospitalParts_ne_iff q hd).mpr ⟨hc1, by simp [hH, hI]⟩ hp1
        · exact (hospitalParts_ne_iff q hd).mpr ⟨hc1, by simp [hH, hI]⟩ hp1
      have hempB : (hospitalParts q hd ++ insuranceParts q ins).isEmpty = false := by
        cases hpp : hospitalParts q hd ++ insuranceParts q ins with
        | nil => exact absurd hpp hne
        | cons a l => simp
      simp only [generate_response, hempB, Bool.false_eq_true, if_false]
      rw [if_pos hconf]

/-- Sample successful hospital result used to instantiate C5. -/
def sampleHospitalResult : HospitalResult :=
  ⟨"success",
    [⟨"H001", "City General Hospital", ["Cardiology", "Neurology", "Emergency"],
      "Downtown", 45, 150, true⟩]⟩

/-- Sample successful insurance result used to instantiate C5. -/
def sampleInsuranceResult : InsuranceResult :=
  ⟨"success",
    [⟨"INS001", "HealthFirst Insurance", "Premium Care Plus", "HMO", 450, 1000,
      ["Emergency", "Surgery", "Prescription", "Dental"], ["H001", "H002"], 43⟩]⟩

/-- Concrete instantiation of C5's advisory clause: a neutral query with
both dependencies returning one successful record each. -/
theorem C5_synthesis_rules_witness :
    generate_response ⟨true, true, true⟩ "hello" (some sampleHospitalResult)
        (some sampleInsuranceResult) =
      ("\n".intercalate
          (hospitalParts "hello" (some sampleHospitalResult)
            ++ insuranceParts "hello" (some sampleInsuranceResult)
            ++ [general_advice]),
        min (hospitalConf (some sampleHospitalResult)
              + insuranceConf (some sampleInsuranceResult) + 0.2) 0.9) :=
  (C5_synthesis_rules ⟨true, true, true⟩ "hello" (some sampleHospitalResult)
      (some sampleInsuranceResult)).2.2.2.2.2.2
    (by
      simp only [hospitalConf, insuranceConf,
        show hospitalContrib (some sampleHospitalResult) = true from by decide,
        show insuranceContrib (some sampleInsuranceResult) = true from by decide,
        if_true]
      norm_num)

/-- Claim C6: when no dependency contributed any text, the orchestrator
selects the degraded fallback message by the two health flags (both down /
hospital only / insurance only / neither) with confidence 0.1 / 0.2 / 0.2
/ 0.3; in particular, when both flags are down the handler's response has
confidence 0.1 and the fixed both-down apology as answer. -/
theorem C6_fallback_selection
    (st : ServiceStatus) (q now : String)
    (hd : Option HospitalResult) (ins : Option InsuranceResult)
    (req : QueryRequest)
    (hc : CallOutcome HospitalResult) (ic : CallOutcome InsuranceResult)
    (hempty : hospitalParts q hd ++ insuranceParts q ins = []) :
    generate_response st q hd ins =
      (if !st.hospital && !st.insurance then (msg_both_down, (0.1 : ℚ))
       else if !st.hospital then (msg_hospital_down, 0.2)
       else if !st.insurance then (msg_insurance_down, 0.2)
       else (msg_no_match, 0.3))
    ∧ (st.hospital = false → st.insurance = false →
        (process_query st req now hc ic).confidence = 0.1
        ∧ (process_query st req now hc ic).answer = msg_both_down) := by
  constructor
  · simp only [generate_response, hempty, List.isEmpty_nil, if_true]
    rfl
  · intro h1 h2
    simp only [process_query, resolve, h1, h2, if_false]
    simp [generate_response, hospitalParts, insuranceParts, fallback_response,
      h1, h2]

/-- Concrete instantiation of C6: both health flags down, both calls
failed, a query matching nothing. -/
theorem C6_fallback_selection_witness :
    (process_query ⟨false, false, true⟩ ⟨"zzz", none, none⟩ "t0"
        CallOutcome.failed CallOutcome.failed).confidence = 0.1
    ∧ (process_query ⟨false, false, true⟩ ⟨"zzz", none, none⟩ "t0"
        CallOutcome.failed CallOutcome.failed).answer = msg_both_down :=
  (C6_fallback_selection ⟨false, false, true⟩ "zzz" "t0" none none
      ⟨"zzz", none, none⟩ CallOutcome.failed CallOutcome.failed rfl).2 rfl rfl

end RagServer

namespace Gateway

/-- Whether a direct hospital call's body enters the gateway's fallback
`sources` (`main.py` line 221): present and `status == "success"`. -/
def hospitalSourceOk (hd : Option HospitalResult) : Bool :=
  match hd with
  | some r => r.status == "success"
  | none => false

/-- Whether a direct insurance call's body enters the fallback `sources`
(`main.py` line 229). -/
def insuranceSourceOk (ins : Option InsuranceResult) : Bool :=
  match ins with
  | some r => r.status == "success"
  | none => false

/-- One fallback hospital bullet, `main.py` line 226. -/
def gwHospitalBullet (h : Hospital) : String :=
  s!"• {h.name} - {h.location}\n"

/-- One fallback insurance bullet, `main.py` line 234. -/
def gwInsuranceBullet (p : InsurancePlan) : String :=
  s!"• {p.plan_name} - ${p.monthly_premium}/month\n"

/-- The hospital block appended to the fallback answer (`main.py` lines
222-226): header plus the first 2 items, or nothing when the data list is
empty. -/
def gw_hospital_section (hd : HospitalResult) : String :=
  if !hd.data.isEmpty then
    s!"\nHospitals ({hd.data.length} found):\n"
      ++ String.join ((hd.data.take 2).map gwHospitalBullet)
  else ""

/-- The insurance block appended to the fallback answer (`main.py` lines
230-234). -/
def gw_insurance_section (ins : InsuranceResult) : String :=
  if !ins.data.isEmpty then
    s!"\nInsurance Plans ({ins.data.length} found):\n"
      ++ String.join ((ins.data.take 2).map gwInsuranceBullet)
  else ""

/-- The fallback answer text, `main.py` lines 218-238: the base sentence
with per-dependency blocks, replaced wholesale by the unavailability
sentence when neither source qualified. -/
def gw_fallback_answer (hd : Option HospitalResult)
    (ins : Option InsuranceResult) : String :=
  let ans := "I found the following information:\n"
  let ans := match hd with
    | some r => if r.status == "success" then ans ++ gw_hospital_section r else ans
    | none => ans
  let ans := match ins with
    | some r => if r.status == "success" then ans ++ gw_insurance_section r else ans
    | none => ans
  if !hospitalSourceOk hd && !insuranceSourceOk ins then
    "Services are temporarily unavailable. Please try again later."
  else ans

/-- The `data` object of the gateway's degraded fallback response,
`main.py` lines 242-248. -/
structure FallbackData where
  status : String := "success"
  answer : String
  confidence : ℚ
  sourceHospital : Option HospitalResult
  sourceInsurance : Option InsuranceResult
  service : String := "gateway_fallback"
deriving DecidableEq, Repr

/-- Build the fallback `data` object (`main.py` lines 210-248). -/
def gw_fallback (hd : Option HospitalResult)
    (ins : Option InsuranceResult) : FallbackData :=
  { answer := gw_fallback_answer hd ins
    confidence := if hospitalSourceOk hd || insuranceSourceOk ins then 0.7 else 0.1
    sourceHospital := if hospitalSourceOk hd then hd else none
    sourceInsurance := if insuranceSourceOk ins then ins else none }

/-- The `data` field of a gateway `/api/query` response: the orchestrator
body on success (`main.py` lines 203-208), the synthesized fallback
(lines 240-251), or the error body (lines 255-264). -/
inductive GatewayData where
  | ragData : RagServer.RAGResponse → GatewayData
  | fallbackData : FallbackData → GatewayData
  | errorData : String → ℚ → String → GatewayData
deriving DecidableEq, Repr

/-- Top-level body of a gateway `/api/query` response. -/
structure GatewayResponse where
  status : String
  data : GatewayData
  timestamp : String
  gateway : String := "main"
deriving DecidableEq, Repr

/-- `process_query` of the gateway (`main.py` lines 192-264, the `try`
body): `ragResult` is what `call_service "rag"` returned (`none` both when
the rag breaker denied the call and when the call failed), and the two
direct results are what the fallback calls returned. -/
def api_process_query (ragResult : Option RagServer.RAGResponse)
    (hospital_data : Option HospitalResult)
    (insurance_data : Option InsuranceResult) (now : String) :
    GatewayResponse :=
  match ragResult with
  | some r => { status := "success", data := .ragData r, timestamp := now }
  | none =>
      { status := "degraded"
        data := .fallbackData (gw_fallback hospital_data insurance_data)
        timestamp := now }

/-- Claim C8: whenever the orchestrator call yields nothing (breaker
denial or failure), the gateway returns a degraded — not error — body
whose fallback data uses at most the first 2 items per dependency and
carries confidence 0.7 exactly when at least one direct call returned a
successful body, 0.1 otherwise. -/
theorem C8_gateway_degraded_fallback
    (hd : Option HospitalResult) (ins : Option InsuranceResult)
    (now : String) :
    (api_process_query none hd ins now).status = "degraded"
    ∧ (api_process_query none hd ins now).data
        = .fallbackData (gw_fallback hd ins)
    ∧ ((gw_fallback hd ins).confidence = 0.7
        ↔ (hospitalSourceOk hd = true ∨ insuranceSourceOk ins = true))
    ∧ ((gw_fallback hd ins).confidence = 0.7
        ∨ (gw_fallback hd ins).confidence = 0.1)
    ∧ (∀ r : HospitalResult, ((r.data.take 2).map gwHospitalBullet).length ≤ 2)
    ∧ (∀ r : InsuranceResult, ((r.data.take 2).map gwInsuranceBullet).length ≤ 2)
    ∧ (gw_fallback hd ins).status = "success" := by
  refine ⟨rfl, rfl, ?_, ?_, ?_, ?_, rfl⟩
  · simp only [gw_fallback]
    cases hh : hospitalSourceOk hd <;> cases hi : insuranceSourceOk ins <;>
      norm_num
  · simp only [gw_fallback]
    cases hh : hospitalSourceOk hd <;> cases hi : insuranceSourceOk ins <;> simp
  · intro r
    simp [List.length_take]
  · intro r
    simp [List.length_take]

end Gateway

namespace HospitalServer

/-- `HOSPITAL_DATA`, `hospital_server.py` lines 32-60 (ratings in
tenths). -/
def HOSPITAL_DATA : List Hospital :=
  [⟨"H001", "City General Hospital", ["Cardiology", "Neurology", "Emergency"],
      "Downtown", 45, 150, true⟩,
   ⟨"H002", "St. Mary\x27s Medical Center", ["Oncology", "Pediatrics", "Surgery"],
      "North Side", 42, 120, true⟩,
   ⟨"H003", "Regional Specialty Clinic", ["Dermatology", "Orthopedics"],
      "Suburbs", 40, 80, false⟩]

/-- The match predicate of `/search`, `hospital_server.py` lines 86-88:
the lower-cased query occurs in the name or location, or some specialty
(lowered) occurs in the query. -/
def hospitalMatches (ql : String) (h : Hospital) : Bool :=
  substr ql (toLowerStr h.name)
  || h.specialties.any (fun s => substr (toLowerStr s) ql)
  || substr ql (toLowerStr h.location)

/-- `search_hospitals`, `hospital_server.py` lines 73-101: filter the
dataset, and fall back to the whole dataset when nothing matched. -/
def search_hospitals (q : String) : HospitalResult :=
  let ql := toLowerStr q
  let results := HOSPITAL_DATA.filter (hospitalMatches ql)
  let results := if results.isEmpty then HOSPITAL_DATA else results
  { status := "success", data := results }

end HospitalServer

namespace InsuranceServer

/-- `INSURANCE_DATA`, `insurance_server.py` lines 31-76 (ratings in
tenths). -/
def INSURANCE_DATA : List InsurancePlan :=
  [⟨"INS001", "HealthFirst Insurance", "Premium Care Plus", "HMO", 450, 1000,
      ["Emergency", "Surgery", "Prescription", "Dental"], ["H001", "H002"], 43⟩,
   ⟨"INS002", "MediCare Solutions", "Family Health Plan", "PPO", 650, 500,
      ["Emergency", "Surgery", "Prescription", "Mental Health", "Vision"],
      ["H001", "H003"], 41⟩,
   ⟨"INS003", "Basic Health Co", "Essential Coverage", "Bronze", 250, 2500,
      ["Emergency", "Basic Surgery"], ["H002"], 38⟩,
   ⟨"INS004", "Elite Medical Insurance", "Platinum Select", "Platinum", 850, 200,
      ["Emergency", "Surgery", "Prescription", "Dental", "Vision",
        "Mental Health", "Alternative Medicine"], ["H001", "H002", "H003"], 47⟩]

/-- The match predicate of `/search`, `insurance_server.py` lines 102-105. -/
def insuranceMatches (ql : String) (p : InsurancePlan) : Bool :=
  substr ql (toLowerStr p.provider)
  || substr ql (toLowerStr p.plan_name)
  || substr ql (toLowerStr p.type)
  || p.coverage.any (fun c => substr (toLowerStr c) ql)

/-- The budget keyword test, `insurance_server.py` line 109. -/
def budget_keyword (ql : String) : Bool :=
  substr "cheap" ql || substr "affordable" ql || substr "budget" ql

/-- The premium keyword test, `insurance_server.py` line 111. -/
def premium_keyword (ql : String) : Bool :=
  substr "premium" ql || substr "best" ql || substr "high" ql

/-- Stable insertion step: place `a` after every element `b` with
`le b a`. -/
def insertStable {α : Type} (le : α → α → Bool) (a : α) : List α → List α
  | [] => [a]
  | b :: bs => if le b a then b :: insertStable le a bs else a :: b :: bs

/-- Stable sort modelling Python's `sorted` (later equal-key elements end
up after earlier ones). -/
def sortStable {α : Type} (le : α → α → Bool) (l : List α) : List α :=
  l.foldl (fun acc x => insertStable le x acc) []

/-- `search_insurance`, `insurance_server.py` lines 89-124: filter, then
override with a budget- or rating-based top-2 cut of the whole dataset
when a keyword applies, then fall back to the whole dataset when the
result is empty. -/
def search_insurance (q : String) : InsuranceResult :=
  let ql := toLowerStr q
  let results := INSURANCE_DATA.filter (insuranceMatches ql)
  let results :=
    if budget_keyword ql then
      (sortStable (fun x y => decide (x.monthly_premium ≤ y.monthly_premium))
        INSURANCE_DATA).take 2
    else if premium_keyword ql then
      (sortStable (fun x y => decide (y.ratingTenths ≤ x.ratingTenths))
        INSURANCE_DATA).take 2
    else results
  let results := if results.isEmpty then INSURANCE_DATA else results
  { status := "success", data := results }

end InsuranceServer

/-- A list guarded by the empty-fallback pattern is never empty when the
fallback itself is not. -/
lemma if_isEmpty_ne {α : Type} (l d : List α) (hd : d ≠ []) :
    (if l.isEmpty then d else l) ≠ [] := by
  split
  · exact hd
  · rename_i h
    cases l with
    | nil => simp at h
    | cons a as => simp

/-- Claim C10: every `/search` response of the hospital and insurance
services is successful with a non-empty data list; in particular, when the
query matches nothing (and, for insurance, no budget or premium keyword
applies) the whole fixed dataset is returned. -/
theorem C10_search_results_never_empty (q : String) :
    (HospitalServer.search_hospitals q).status = "success"
    ∧ (HospitalServer.search_hospitals q).data ≠ []
    ∧ (InsuranceServer.search_insurance q).status = "success"
    ∧ (InsuranceServer.search_insurance q).data ≠ []
    ∧ (HospitalServer.HOSPITAL_DATA.filter
          (HospitalServer.hospitalMatches (toLowerStr q)) = [] →
        (HospitalServer.search_hospitals q).data = HospitalServer.HOSPITAL_DATA)
    ∧ (InsuranceServer.budget_keyword (toLowerStr q) = false →
        InsuranceServer.premium_keyword (toLowerStr q) = false →
        InsuranceServer.INSURANCE_DATA.filter
          (InsuranceServer.insuranceMatches (toLowerStr q)) = [] →
        (InsuranceServer.search_insurance q).data
          = InsuranceServer.INSURANCE_DATA) := by
  refine ⟨rfl, ?_, rfl, ?_, ?_, ?_⟩
  · simp only [HospitalServer.search_hospitals]
    exact if_isEmpty_ne _ _ (by simp [HospitalServer.HOSPITAL_DATA])
  · simp only [InsuranceServer.search_insurance]
    exact if_isEmpty_ne _ _ (by simp [InsuranceServer.INSURANCE_DATA])
  · intro hf
    simp only [HospitalServer.search_hospitals, hf, List.isEmpty_nil, if_true]
  · intro hb hp hf
    simp only [InsuranceServer.search_insurance, hb, hp, hf, Bool.false_eq_true,
      if_false, List.isEmpty_nil, if_true]

/-- Concrete instantiation of C10's full-dataset clauses at a query
matching nothing. -/
theorem C10_search_results_never_empty_witness :
    (HospitalServer.search_hospitals "zzz").data = HospitalServer.HOSPITAL_DATA
    ∧ (InsuranceServer.search_insurance "zzz").data
        = InsuranceServer.INSURANCE_DATA :=
  ⟨(C10_search_results_never_empty "zzz").2.2.2.2.1 (by decide),
   (C10_search_results_never_empty "zzz").2.2.2.2.2 (by decide) (by decide)
     (by decide)⟩
